import Mathlib

/-!
Verification development for the SPC (statistical process control) engine:
shallow embedding of the subgrouping, control-limit, capability, OOS and
Nelson-rule code over rational numbers, with the pandas rolling-window and
missing-value semantics made explicit.
-/

namespace SPC

/-! ### Pandas-level primitives

Floats are modelled by rationals.  A missing value (Python None or a pandas
NaN produced by `diff`/`shift`/`rolling` with insufficient history) is
modelled by `Option`.  Pandas comparisons of a numeric Series against a
missing scalar return all-False (for `>` and `<`), which `gtO`/`ltO` encode. -/

def gtO (v : ℚ) (u : Option ℚ) : Bool :=
  match u with
  | some x => decide (x < v)
  | none => false

def ltO (v : ℚ) (l : Option ℚ) : Bool :=
  match l with
  | some x => decide (v < x)
  | none => false

/-- Mean of a numeric column, `Series.mean()`. -/
def colMean (xs : List ℚ) : ℚ := xs.sum / (xs.length : ℚ)

/-- Mean of a column that may contain NaN entries: pandas `mean()` skips NaN. -/
def optColMean (xs : List (Option ℚ)) : ℚ :=
  colMean xs.reduceOption

/-- Rolling all-true test over the window of size `w` ending at index `i`
(`rolling(window=w, min_periods=w)`): false while fewer than `w` points exist. -/
def windowAll (bs : List Bool) (w i : ℕ) : Bool :=
  decide (w ≤ i + 1) && (List.range w).all (fun k => bs.getD (i - k) false)

/-- Rolling any-true test (`rolling(...).max()` of a boolean series viewed as 0/1). -/
def windowAny (bs : List Bool) (w i : ℕ) : Bool :=
  decide (w ≤ i + 1) && (List.range w).any (fun k => bs.getD (i - k) false)

/-- Rolling count of true entries over the window of size `w` ending at `i`
(`rolling(...).sum()` of a boolean series). -/
def windowCount (bs : List Bool) (w i : ℕ) : ℕ :=
  ((List.range w).filter (fun k => bs.getD (i - k) false)).length

/-- The pattern `for k in range(w): df.loc[mask.shift(k), col] = True`:
row `i` is flagged when some `mask[i - k]` with `k < w` and `k ≤ i` is true,
so a true mask entry spills onto the following `w - 1` rows. -/
def spreadForward (mask : List Bool) (w : ℕ) : List Bool :=
  (List.range mask.length).map
    (fun i => (List.range w).any (fun k => decide (k ≤ i) && mask.getD (i - k) false))

/-! ### Nelson rules (src/spc/nelson_rules.py)

Each `nelsonKFlags` computes the boolean column the Python function
`nelson_k` writes; the input is the shared `mean` column. -/

/-- The private helper `_calculate_sigma`: recomputes CL as the midpoint of the
limits and returns `(ucl - cl) / 3`. -/
def calcSigma (ucl lcl : ℚ) : ℚ := (ucl - (ucl + lcl) / 2) / 3

/-- Zone predicate of `nelson_6`/`nelson_8`: strictly above the 1-sigma line. -/
def above1Sigma (cl sigma v : ℚ) : Bool := decide (cl + sigma < v)

/-- Zone predicate of `nelson_6`/`nelson_8`: strictly below the minus-1-sigma line. -/
def below1Sigma (cl sigma v : ℚ) : Bool := decide (v < cl - sigma)

/-- The `outside_zone_c` series of `nelson_8`: beyond one sigma on either side. -/
def beyond1Sigma (cl sigma v : ℚ) : Bool :=
  above1Sigma cl sigma v || below1Sigma cl sigma v

/-- The `in_zone_c` series of `nelson_7`: within one sigma of CL, boundaries included. -/
def inZoneC (cl sigma v : ℚ) : Bool :=
  decide (v ≤ cl + sigma) && decide (cl - sigma ≤ v)

/-- Rule 1 (also reused for the OOS column with USL/LSL): strictly outside the
limits.  The limits arrive as optional scalars because `_check_nelson` passes
`self.ucl_x`/`self.lcl_x` and `usl`/`lsl`, each of which may be Python None. -/
def nelson1Flags (ul ll : Option ℚ) (xs : List ℚ) : List Bool :=
  xs.map (fun v => gtO v ul || ltO v ll)

/-- Run lengths of a boolean series grouped by value changes, as computed by
`groups = (b != b.shift()).cumsum(); b.groupby(groups).cumcount() + 1`.
The first row always starts a new run (its shifted neighbour is NaN). -/
def runLensAux : Option Bool → ℕ → List Bool → List ℕ
  | _, _, [] => []
  | prev, len, b :: rest =>
    let l : ℕ := if prev = some b then len + 1 else 1
    l :: runLensAux (some b) l rest

/-- Rule 2: flag every index whose same-side-of-CL run length reaches 9. -/
def nelson2Flags (cl : ℚ) (xs : List ℚ) : List Bool :=
  (runLensAux none 0 (xs.map (fun v => decide (cl < v)))).map (fun l => decide (9 ≤ l))

/-- The `np.sign(diff)` column with zeros replaced by NaN: entry `i` is the sign
of `xs[i] - xs[i-1]`, `none` for the first entry and for a zero difference. -/
def diffSignsAux : ℚ → List ℚ → List (Option ℤ)
  | _, [] => []
  | prev, y :: rest =>
    (if y = prev then none else if prev < y then some 1 else some (-1)) :: diffSignsAux y rest

def diffSigns : List ℚ → List (Option ℤ)
  | [] => []
  | x :: rest => none :: diffSignsAux x rest

/-- Run lengths of the sign column.  Pandas treats NaN as unequal to everything
(including NaN), so a run continues only when both neighbours are present and
equal; every NaN starts a fresh singleton group. -/
def runLensSignAux : Option ℤ → ℕ → List (Option ℤ) → List ℕ
  | _, _, [] => []
  | prev, len, s :: rest =>
    let l : ℕ :=
      match prev, s with
      | some p, some q => if p = q then len + 1 else 1
      | _, _ => 1
    l :: runLensSignAux s l rest

/-- Rule 3: flag every index whose monotone-difference run length reaches 6.
The run length counts differences, not points. -/
def nelson3Flags (xs : List ℚ) : List Bool :=
  (runLensSignAux none 0 (diffSigns xs)).map (fun l => decide (6 ≤ l))

/-- The `alternating` series of `nelson_4`: true at `i` when the differences at
`i` and `i-1` are both nonzero with opposite signs (`direction * direction.shift(1) == -1`,
NaN products compare false). -/
def alternatingList (xs : List ℚ) : List Bool :=
  match diffSigns xs with
  | [] => []
  | d :: rest =>
    false :: List.zipWith
      (fun cur prv =>
        match cur, prv with
        | some a, some b => decide (a * b = -1)
        | _, _ => false)
      rest (d :: rest)

/-- Rule 4: flag index `i` when the rolling window of 13 alternation indicators
ending at `i` sums to 13, i.e. all 13 are true. -/
def nelson4Flags (xs : List ℚ) : List Bool :=
  (List.range xs.length).map (fun i => windowAll (alternatingList xs) 13 i)

/-- Rule 5 window mask: 2 or 3 of the last 3 points beyond 2 sigma on one side. -/
def nelson5Mask (cl ucl lcl : ℚ) (xs : List ℚ) : List Bool :=
  (List.range xs.length).map (fun i =>
    (decide (3 ≤ i + 1) &&
      (decide (windowCount (xs.map (fun v => decide (cl + 2 * calcSigma ucl lcl < v))) 3 i = 2) ||
       decide (windowCount (xs.map (fun v => decide (cl + 2 * calcSigma ucl lcl < v))) 3 i = 3))) ||
    (decide (3 ≤ i + 1) &&
      (decide (windowCount (xs.map (fun v => decide (v < cl - 2 * calcSigma ucl lcl))) 3 i = 2) ||
       decide (windowCount (xs.map (fun v => decide (v < cl - 2 * calcSigma ucl lcl))) 3 i = 3))))

/-- Rule 5: the mask is written back through `mask`, `mask.shift(1)`, `mask.shift(2)`. -/
def nelson5Flags (cl ucl lcl : ℚ) (xs : List ℚ) : List Bool :=
  spreadForward (nelson5Mask cl ucl lcl xs) 3

/-- Rule 6 window mask: 4 or 5 of the last 5 points beyond 1 sigma on one side. -/
def nelson6Mask (cl ucl lcl : ℚ) (xs : List ℚ) : List Bool :=
  (List.range xs.length).map (fun i =>
    (decide (5 ≤ i + 1) &&
      (decide (windowCount (xs.map (above1Sigma cl (calcSigma ucl lcl))) 5 i = 4) ||
       decide (windowCount (xs.map (above1Sigma cl (calcSigma ucl lcl))) 5 i = 5))) ||
    (decide (5 ≤ i + 1) &&
      (decide (windowCount (xs.map (below1Sigma cl (calcSigma ucl lcl))) 5 i = 4) ||
       decide (windowCount (xs.map (below1Sigma cl (calcSigma ucl lcl))) 5 i = 5))))

def nelson6Flags (cl ucl lcl : ℚ) (xs : List ℚ) : List Bool :=
  spreadForward (nelson6Mask cl ucl lcl xs) 5

/-- Rule 7: the rolling all-in-zone-C test.  The rolling result is NaN for the
first 14 indices; the source applies `astype(bool)` before `fillna(False)`,
and `bool(nan)` is True, so every index below 14 is unconditionally flagged.
From index 14 on the flag is the genuine window test, placed only on the last
point of its window. -/
def nelson7Flags (cl ucl lcl : ℚ) (xs : List ℚ) : List Bool :=
  (List.range xs.length).map (fun i =>
    decide (i + 1 < 15) || windowAll (xs.map (inZoneC cl (calcSigma ucl lcl))) 15 i)

/-- Rule 8 window mask.  All three rolling series go through the same
`astype(bool)`-before-`fillna` chain, so each is unconditionally true for the
first 7 indices. -/
def nelson8Mask (cl ucl lcl : ℚ) (xs : List ℚ) : List Bool :=
  (List.range xs.length).map (fun i =>
    (decide (i + 1 < 8) || windowAll (xs.map (beyond1Sigma cl (calcSigma ucl lcl))) 8 i) &&
    (decide (i + 1 < 8) || windowAny (xs.map (above1Sigma cl (calcSigma ucl lcl))) 8 i) &&
    (decide (i + 1 < 8) || windowAny (xs.map (below1Sigma cl (calcSigma ucl lcl))) 8 i))

def nelson8Flags (cl ucl lcl : ℚ) (xs : List ℚ) : List Bool :=
  spreadForward (nelson8Mask cl ucl lcl xs) 8

/-! ### Constant tables (src/spc/chart_constants.py) -/

def A3_TABLE : ℕ → Option ℚ
  | 2 => some (2659/1000)
  | 3 => some (1954/1000)
  | 4 => some (1628/1000)
  | 5 => some (1427/1000)
  | 6 => some (1287/1000)
  | 7 => some (1182/1000)
  | 8 => some (1099/1000)
  | 9 => some (1032/1000)
  | 10 => some (975/1000)
  | 11 => some (927/1000)
  | 12 => some (886/1000)
  | 13 => some (850/1000)
  | 14 => some (817/1000)
  | 15 => some (789/1000)
  | _ => none

def D3_TABLE : ℕ → Option ℚ
  | 2 => some 0
  | 3 => some 0
  | 4 => some 0
  | 5 => some 0
  | 6 => some 0
  | 7 => some (76/1000)
  | 8 => some (136/1000)
  | 9 => some (184/1000)
  | 10 => some (223/1000)
  | 11 => some (256/1000)
  | 12 => some (283/1000)
  | 13 => some (307/1000)
  | 14 => some (328/1000)
  | 15 => some (347/1000)
  | _ => none

def D4_TABLE : ℕ → Option ℚ
  | 2 => some (3268/1000)
  | 3 => some (2574/1000)
  | 4 => some (2282/1000)
  | 5 => some (2114/1000)
  | 6 => some (2004/1000)
  | 7 => some (1924/1000)
  | 8 => some (1864/1000)
  | 9 => some (1816/1000)
  | 10 => some (1777/1000)
  | 11 => some (1744/1000)
  | 12 => some (1717/1000)
  | 13 => some (1693/1000)
  | 14 => some (1672/1000)
  | 15 => some (1653/1000)
  | _ => none

def B3_TABLE : ℕ → Option ℚ
  | 2 => some 0
  | 3 => some 0
  | 4 => some 0
  | 5 => some 0
  | 6 => some (30/1000)
  | 7 => some (118/1000)
  | 8 => some (185/1000)
  | 9 => some (239/1000)
  | 10 => some (284/1000)
  | 11 => some (321/1000)
  | 12 => some (354/1000)
  | 13 => some (382/1000)
  | 14 => some (406/1000)
  | 15 => some (428/1000)
  | _ => none

def B4_TABLE : ℕ → Option ℚ
  | 2 => some (3267/1000)
  | 3 => some (2568/1000)
  | 4 => some (2266/1000)
  | 5 => some (2089/1000)
  | 6 => some (1970/1000)
  | 7 => some (1882/1000)
  | 8 => some (1815/1000)
  | 9 => some (1761/1000)
  | 10 => some (1716/1000)
  | 11 => some (1679/1000)
  | 12 => some (1646/1000)
  | 13 => some (1618/1000)
  | 14 => some (1594/1000)
  | 15 => some (1572/1000)
  | _ => none

def D2_TABLE : ℕ → Option ℚ
  | 2 => some (1128/1000)
  | _ => none

def E2_TABLE : ℕ → Option ℚ
  | 2 => some (2659/1000)
  | _ => none

/-! ### Subgroup table rows and limit calculators (src/spc/metrics.py)

One `SubgroupRow` carries the aggregate columns of `df_subgroups` that the
calculators read: `mean`, `std`, `range` (written `rng`), `moving_range`
(NaN on the first row, hence optional) and `size`. -/

structure SubgroupRow where
  mean : ℚ
  std : ℚ
  rng : ℚ
  moving_range : Option ℚ
  size : ℕ
deriving DecidableEq, Repr

/-- X-bar limits from S-bar, `calculate_control_limits_x_s`: returns
`(grand_avg_x, grand_std_s, ucl_x, lcl_x, A3)`, or fails (ValueError) when the
subgroup size has no A3 constant. -/
def calculate_control_limits_x_s (df : List SubgroupRow) (n : ℕ) :
    Option (ℚ × ℚ × ℚ × ℚ × ℚ) :=
  match A3_TABLE n with
  | none => none
  | some A3 =>
    let grand_avg_x := colMean (df.map SubgroupRow.mean)
    let grand_std_s := colMean (df.map SubgroupRow.std)
    some (grand_avg_x, grand_std_s, grand_avg_x + A3 * grand_std_s,
      grand_avg_x - A3 * grand_std_s, A3)

/-- R-chart limits, `calculate_control_limits_r`: returns
`(avg_r, ucl_r, lcl_r, D3, D4)`. -/
def calculate_control_limits_r (df : List SubgroupRow) (n : ℕ) :
    Option (ℚ × ℚ × ℚ × ℚ × ℚ) :=
  match D3_TABLE n, D4_TABLE n with
  | some D3, some D4 =>
    let avg_r := colMean (df.map SubgroupRow.rng)
    some (avg_r, D4 * avg_r, D3 * avg_r, D3, D4)
  | _, _ => none

/-- S-chart limits, `calculate_control_limits_s`: returns
`(avg_std_s, ucl_s, lcl_s, B3, B4)`. -/
def calculate_control_limits_s (df : List SubgroupRow) (n : ℕ) :
    Option (ℚ × ℚ × ℚ × ℚ × ℚ) :=
  match B3_TABLE n, B4_TABLE n with
  | some B3, some B4 =>
    let avg_std_s := colMean (df.map SubgroupRow.std)
    some (avg_std_s, B4 * avg_std_s, B3 * avg_std_s, B3, B4)
  | _, _ => none

/-- I-chart limits, `calculate_control_limits_i`: returns
`(grand_avg_i, mr_bar, ucl_i, lcl_i, E2_n2, process_sigma)`.  The source
guards against a zero d2 constant, but `D2_TABLE[2] = 1.128` is fixed, so the
ZeroDivisionError branch is unreachable and the function is total. -/
def calculate_control_limits_i (df : List SubgroupRow) :
    ℚ × ℚ × ℚ × ℚ × ℚ × ℚ :=
  let D2_n2 : ℚ := (D2_TABLE 2).getD 0
  let E2_n2 : ℚ := (E2_TABLE 2).getD 0
  let grand_avg_i := colMean (df.map SubgroupRow.mean)
  let mr_bar := optColMean (df.map SubgroupRow.moving_range)
  let process_sigma := mr_bar / D2_n2
  (grand_avg_i, mr_bar, grand_avg_i + 3 * process_sigma,
    grand_avg_i - 3 * process_sigma, E2_n2, process_sigma)

/-- MR-chart limits, `calculate_control_limits_mr`: returns
`(mr_bar, ucl_mr, lcl_mr, D3_mr, D4_mr)` with the fixed n=2 factors. -/
def calculate_control_limits_mr (df : List SubgroupRow) :
    ℚ × ℚ × ℚ × ℚ × ℚ :=
  let D3_mr : ℚ := 0
  let D4_mr : ℚ := 3268/1000
  let mr_bar := optColMean (df.map SubgroupRow.moving_range)
  (mr_bar, D4_mr * mr_bar, D3_mr * mr_bar, D3_mr, D4_mr)

/-! ### Capability calculator (src/spc/metrics.py, calculate_cpk) -/

/-- The chart configuration fields the capability calculator reads. -/
structure ChartCfg where
  usl : Option ℚ
  lsl : Option ℚ
deriving DecidableEq, Repr

/-- Result of `calculate_cpk`: the pair `(cp, cpk)` plus whether the warning
about a nonpositive sigma was printed.  The function always returns normally;
it never raises. -/
def calculate_cpk (cfg : ChartCfg) (grand_avg process_sigma : ℚ) :
    Option ℚ × Option ℚ × Bool :=
  match cfg.usl, cfg.lsl with
  | some usl, some lsl =>
    if process_sigma ≤ 0 then (none, none, true)
    else
      (some ((usl - lsl) / (6 * process_sigma)),
       some (min ((grand_avg - lsl) / (3 * process_sigma))
         ((usl - grand_avg) / (3 * process_sigma))),
       false)
  | _, _ => (none, none, false)

/-! ### OOS classifier

`check_oos` in metrics.py and the final `nelson_1` call of
`SpcDataProcessor._check_nelson` (with `ul=usl, ll=lsl, new_column=OOS`) both
build the mask `(x > usl) | (x < lsl)`.  Against a missing limit the pandas
comparison returns all-False, so the classification succeeds and the absent
side never triggers. -/
def check_oos_flags (usl lsl : Option ℚ) (xs : List ℚ) : List Bool :=
  xs.map (fun v => gtO v usl || ltO v lsl)

/-! ### Subgrouping engine (src/spc/processor.py, _group_data) -/

/-- Occurrences of a size value in the size column. -/
def countOf (sizes : List ℕ) (s : ℕ) : ℕ := (sizes.filter (fun t => t = s)).length

/-- The `value_counts().index[0]` step: a size of maximal frequency.  The
tie-break among equally frequent sizes is implementation-defined in pandas;
the model picks the argmax over the column in order. -/
def dominantSize (sizes : List ℕ) : ℕ := (sizes.argmax (countOf sizes)).getD 0

structure GroupResult where
  valid : List SubgroupRow
  invalid : List SubgroupRow
  dominant : ℕ
deriving DecidableEq, Repr

/-- The partition step of `_group_data`: for a dominant size above 1 the rows
of deviating size move to the invalid set; for dominant size 1 every row stays
valid and the invalid set is empty. -/
def group_partition (df : List SubgroupRow) : GroupResult :=
  let d := dominantSize (df.map SubgroupRow.size)
  if 1 < d then
    ⟨df.filter (fun r => r.size = d), df.filter (fun r => ¬ r.size = d), d⟩
  else
    ⟨df, [], d⟩

/-! ### Variant selection (src/spc/processor.py, _calculate_metrics) -/

/-- The branch of `_calculate_metrics` that computes the two limit triples
`(cl_x, ucl_x, lcl_x)` and `(cl_v, ucl_v, lcl_v)`.  A `none` result models the
caught ValueError path: the method prints and returns with no limits set. -/
def selectLimits (n : ℕ) (df : List SubgroupRow) :
    Option ((ℚ × ℚ × ℚ) × (ℚ × ℚ × ℚ)) :=
  if n = 1 then
    match calculate_control_limits_i df, calculate_control_limits_mr df with
    | (clx, _, uclx, lclx, _, _), (clv, uclv, lclv, _, _) =>
      some ((clx, uclx, lclx), (clv, uclv, lclv))
  else if 2 ≤ n ∧ n < 10 then
    match calculate_control_limits_x_s df n, calculate_control_limits_r df n with
    | some (clx, _, uclx, lclx, _), some (clv, uclv, lclv, _, _) =>
      some ((clx, uclx, lclx), (clv, uclv, lclv))
    | _, _ => none
  else if 10 ≤ n ∧ n ≤ 15 then
    match calculate_control_limits_x_s df n, calculate_control_limits_s df n with
    | some (clx, _, uclx, lclx, _), some (clv, uclv, lclv, _, _) =>
      some ((clx, uclx, lclx), (clv, uclv, lclv))
    | _, _ => none
  else none

/-- The variability estimate underlying the central-tendency track: MR-bar for
the individual chart, S-bar for both X-bar variants. -/
def estCentral (n : ℕ) (df : List SubgroupRow) : ℚ :=
  if n = 1 then optColMean (df.map SubgroupRow.moving_range)
  else colMean (df.map SubgroupRow.std)

/-- The variability estimate underlying the variability track: MR-bar, R-bar
or S-bar according to the selected chart. -/
def estVar (n : ℕ) (df : List SubgroupRow) : ℚ :=
  if n = 1 then optColMean (df.map SubgroupRow.moving_range)
  else if n < 10 then colMean (df.map SubgroupRow.rng)
  else colMean (df.map SubgroupRow.std)

/-! ### Rule engine over the classified table (src/spc/processor.py, _check_nelson)

The accumulated DataFrame is modelled by its shared `mean` column plus one
optional flag column per rule: `none` means the column has not been written
yet.  Each `nelson_k` copies its input, computes its flags from the `mean`
column and the limit parameters alone, and overwrites only its own column. -/

structure Params where
  cl : ℚ
  ucl : ℚ
  lcl : ℚ
deriving DecidableEq, Repr

structure NelsonTable where
  mean : List ℚ
  flags : Fin 8 → Option (List Bool)

/-- The flag column rule `i` computes from the mean column, with the limit
parameters `_check_nelson` passes (`cl_x`, `ucl_x`, `lcl_x`). -/
def ruleFlags (i : Fin 8) (p : Params) (xs : List ℚ) : List Bool :=
  match i with
  | 0 => nelson1Flags (some p.ucl) (some p.lcl) xs
  | 1 => nelson2Flags p.cl xs
  | 2 => nelson3Flags xs
  | 3 => nelson4Flags xs
  | 4 => nelson5Flags p.cl p.ucl p.lcl xs
  | 5 => nelson6Flags p.cl p.ucl p.lcl xs
  | 6 => nelson7Flags p.cl p.ucl p.lcl xs
  | 7 => nelson8Flags p.cl p.ucl p.lcl xs

/-- Application of one rule to the accumulated table. -/
def applyRule (p : Params) (t : NelsonTable) (i : Fin 8) : NelsonTable :=
  ⟨t.mean, Function.update t.flags i (some (ruleFlags i p t.mean))⟩

/-- Application of a sequence of rules, left to right. -/
def applyRules (p : Params) (l : List (Fin 8)) (t : NelsonTable) : NelsonTable :=
  l.foldl (applyRule p) t

/-- The order `_check_nelson` uses. -/
def allRules : List (Fin 8) := [0, 1, 2, 3, 4, 5, 6, 7]

/-! ### Run model for the stages after grouping (src/spc/processor.py, run_analysis)

`run_analysis` never tests whether `_calculate_metrics` produced limits: it
always proceeds to `_check_nelson`.  With the limits still None, rules 1 to 4
succeed (rule 1 compares against None, which pandas evaluates to all-False),
but `nelson_5` starts by computing `_calculate_sigma(None, None)`, and
`(None + None) / 2` raises an uncaught TypeError, aborting the run before the
report and chart stages. -/

inductive RunOutcome where
  | completed : NelsonTable → RunOutcome
  | raised : String → RunOutcome

/-- The `_check_nelson` stage as invoked by `run_analysis`. -/
def checkNelsonStage (xs : List ℚ) (cl ucl lcl : Option ℚ) :
    Except String NelsonTable :=
  match cl, ucl, lcl with
  | some c, some u, some l => Except.ok (applyRules ⟨c, u, l⟩ allRules ⟨xs, fun _ => none⟩)
  | _, _, _ => Except.error "TypeError: unsupported operand types for + in _calculate_sigma"

/-- The stages of `run_analysis` that follow `_group_data`, for a run whose
dominant subgroup size is `n` and whose valid subgroup table is `df`.
`completed` means the report and chart stages were reached. -/
def run_after_grouping (n : ℕ) (df : List SubgroupRow) : RunOutcome :=
  match selectLimits n df with
  | some ((cx, ux, lx), _) =>
    match checkNelsonStage (df.map SubgroupRow.mean) (some cx) (some ux) (some lx) with
    | Except.ok t => RunOutcome.completed t
    | Except.error e => RunOutcome.raised e
  | none =>
    match checkNelsonStage (df.map SubgroupRow.mean) none none none with
    | Except.ok t => RunOutcome.completed t
    | Except.error e => RunOutcome.raised e

/-- The full post-cleaning pipeline: partition the subgroups, then run the
metric and rule stages on the valid part with the dominant size. -/
def run_pipeline (df : List SubgroupRow) : RunOutcome :=
  run_after_grouping (group_partition df).dominant (group_partition df).valid

/-! ### Concrete inputs used by the counterexample and witness theorems -/

/-- A 16-point series: one out-of-zone point, then 15 points on the center
line.  With `cl = 0`, `ucl = 3`, `lcl = -3` the sigma is 1 and indices 1..15
form a 15-point window entirely inside Zone C. -/
def xsRule7 : List ℚ :=
  [10, 0, 0, 0, 0, 0, 0, 0, 0, 0, 0, 0, 0, 0, 0, 0]

/-- Fourteen strictly alternating points. -/
def xsAlt14 : List ℚ :=
  [0, 1, 0, 1, 0, 1, 0, 1, 0, 1, 0, 1, 0, 1]

/-- Fifteen strictly alternating points. -/
def xsAlt15 : List ℚ :=
  [0, 1, 0, 1, 0, 1, 0, 1, 0, 1, 0, 1, 0, 1, 0]

/-- Six strictly increasing points. -/
def xsMono6 : List ℚ := [0, 1, 2, 3, 4, 5]

/-- Seven strictly increasing points. -/
def xsMono7 : List ℚ := [0, 1, 2, 3, 4, 5, 6]

/-- A subgroup row builder for examples: a mean, a positive spread, a size. -/
def mkRow (m s : ℚ) (n : ℕ) : SubgroupRow := ⟨m, s, 2 * s, some s, n⟩

/-- Subgroup table whose five rows have sizes 5, 5, 5, 4, 5. -/
def dfSizes : List SubgroupRow :=
  [mkRow 1 1 5, mkRow 2 1 5, mkRow 3 1 5, mkRow 4 1 4, mkRow 5 1 5]

/-- Subgroup table whose three rows all have the unsupported size 16. -/
def dfSize16 : List SubgroupRow :=
  [mkRow 1 1 16, mkRow 2 1 16, mkRow 3 1 16]

/-- A one-row subgroup table with positive spread, used by witnesses. -/
def dfOne : List SubgroupRow := [mkRow 1 1 5]

/-- Well-ordering of one limit triple `(cl, ucl, lcl)` relative to the
underlying variability estimate: strict chain for a positive estimate,
collapse to the center line for a zero estimate. -/
def limitsOrderedOK (p : ℚ × ℚ × ℚ) (est : ℚ) : Prop :=
  (0 < est → p.2.2 < p.1 ∧ p.1 < p.2.1) ∧ (est = 0 → p.2.1 = p.1 ∧ p.2.2 = p.1)

/-! ## Theorems -/

/-- Getting an element of a mapped column: position `i` of `xs.map f`. -/
theorem getD_map (f : ℚ → Bool) (xs : List ℚ) (i : ℕ) (h : i < xs.length) :
    (xs.map f).getD i false = f (xs.getD i 0) := by
  rw [List.getD_eq_getElem?_getD, List.getD_eq_getElem?_getD, List.getElem?_map,
    List.getElem?_eq_getElem h]
  simp

/-- Getting an element of a column built over `List.range`. -/
theorem getD_range_map (f : ℕ → Bool) (n i : ℕ) (h : i < n) :
    ((List.range n).map f).getD i false = f i := by
  rw [List.getD_eq_getElem?_getD, List.getElem?_map, List.getElem?_range h]
  rfl

/-- Chain property of additive limits `cl ± A * s` for a positive factor. -/
theorem addChainOK (m s A : ℚ) (hA : 0 < A) :
    limitsOrderedOK (m, m + A * s, m - A * s) s := by
  constructor
  · intro hs
    have h := mul_pos hA hs
    constructor <;> simp <;> linarith
  · rintro rfl
    constructor <;> ring

/-- Chain property of multiplicative limits `(r, D4 * r, D3 * r)` when
`0 ≤ D3 < 1 < D4`. -/
theorem mulChainOK (r D3 D4 : ℚ) (_h30 : 0 ≤ D3) (h31 : D3 < 1) (h41 : 1 < D4) :
    limitsOrderedOK (r, D4 * r, D3 * r) r := by
  refine ⟨fun hr => ⟨?_, ?_⟩, fun hr0 => ⟨?_, ?_⟩⟩
  · show D3 * r < r
    nlinarith
  · show r < D4 * r
    nlinarith
  · show D4 * r = r
    rw [hr0]; ring
  · show D3 * r = r
    rw [hr0]; ring

/-- Chain property of the individual-chart limits `cl ± 3 * (mr / d2)`. -/
theorem iChainOK (m mr c : ℚ) (hc : 0 < c) :
    limitsOrderedOK (m, m + 3 * (mr / c), m - 3 * (mr / c)) mr := by
  constructor
  · intro h
    have h2 : 0 < mr / c := div_pos h hc
    constructor <;> simp <;> linarith
  · rintro rfl
    norm_num

/-- Claim C2: on 14 strictly alternating points Rule 4 raises no flag at all,
because its rolling window demands 13 true alternation indicators, which need
14 nonzero differences and hence 15 points; on 15 strictly alternating points
the flag appears at index 14 (the 15th point), not at the 14th point. -/
theorem rule4_needs_fifteen_points :
    nelson4Flags xsAlt14 = List.replicate 14 false ∧
    (nelson4Flags xsAlt15).getD 14 false = true := by
  constructor
  · with_unfolding_all decide
  · with_unfolding_all decide

/-- Claim C3: on 6 strictly increasing points Rule 3 raises no flag, because
the run length it compares against 6 counts differences rather than points;
the first flag of a strictly increasing sequence appears on the 7th point. -/
theorem rule3_needs_seven_points :
    nelson3Flags xsMono6 = List.replicate 6 false ∧
    (nelson3Flags xsMono7).getD 6 false = true := by
  constructor
  · with_unfolding_all decide
  · with_unfolding_all decide

/-- Claim C5: for a run whose dominant subgroup size is 16, the limit stage
fails with no limits produced (the caught ValueError leaves them None), yet
`run_analysis` still enters `_check_nelson`, which raises an uncaught
TypeError while deriving sigma from the absent limits, so the run aborts by
exception instead of short-circuiting cleanly past the rule stage. -/
theorem unsupported_size_crashes_nelson_stage :
    (group_partition dfSize16).dominant = 16 ∧
    selectLimits 16 (group_partition dfSize16).valid = none ∧
    run_pipeline dfSize16 =
      RunOutcome.raised "TypeError: unsupported operand types for + in _calculate_sigma" := by
  refine ⟨by with_unfolding_all decide, by with_unfolding_all decide, ?_⟩
  with_unfolding_all rfl

/-- Claim C7: the capability calculator returns `(None, None)` without the
warning when either specification limit is absent, returns `(None, None)` and
prints the warning (without raising) when both limits are present but the
sigma estimate is nonpositive, and otherwise returns exactly
`Cp = (USL - LSL) / (6 sigma)` and `Cpk = min(Cpl, Cpu)`. -/
theorem calculate_cpk_spec (cfg : ChartCfg) (grand sigma : ℚ) :
    ((cfg.usl = none ∨ cfg.lsl = none) →
      calculate_cpk cfg grand sigma = (none, none, false)) ∧
    (∀ u l, cfg.usl = some u → cfg.lsl = some l → sigma ≤ 0 →
      calculate_cpk cfg grand sigma = (none, none, true)) ∧
    (∀ u l, cfg.usl = some u → cfg.lsl = some l → 0 < sigma →
      calculate_cpk cfg grand sigma =
        (some ((u - l) / (6 * sigma)),
         some (min ((grand - l) / (3 * sigma)) ((u - grand) / (3 * sigma))),
         false)) := by
  refine ⟨?_, ?_, ?_⟩
  · rintro (h | h)
    · simp only [calculate_cpk, h]
    · rcases hu : cfg.usl with _ | u <;> simp only [calculate_cpk, hu, h]
  · rintro u l hu hl hs
    simp only [calculate_cpk, hu, hl, if_pos hs]
  · rintro u l hu hl hs
    simp only [calculate_cpk, hu, hl, if_neg (not_le.mpr hs)]

/-- Witness for C7 at `USL = 10`, `LSL = 0`, `center = 8`, `sigma = 1`. -/
theorem calculate_cpk_spec_witness :
    calculate_cpk ⟨some 10, some 0⟩ 8 1 =
      (some ((10 - 0) / (6 * 1)),
       some (min ((8 - 0) / (3 * 1)) ((10 - 8) / (3 * 1))), false) :=
  (calculate_cpk_spec ⟨some 10, some 0⟩ 8 1).2.2 10 0 rfl rfl (by norm_num)

/-- Claim C10: with sigma derived from ordered limits, the Zone C membership
test of Rule 7 is the exact pointwise complement of the beyond-1-sigma test of
Rules 6 and 8, and a point exactly on a 1-sigma boundary counts as inside
Zone C and never as beyond one sigma. -/
theorem zoneC_complement (cl ucl lcl v : ℚ) (h : lcl ≤ ucl) :
    inZoneC cl (calcSigma ucl lcl) v = ! beyond1Sigma cl (calcSigma ucl lcl) v ∧
    inZoneC cl (calcSigma ucl lcl) (cl + calcSigma ucl lcl) = true ∧
    beyond1Sigma cl (calcSigma ucl lcl) (cl + calcSigma ucl lcl) = false ∧
    inZoneC cl (calcSigma ucl lcl) (cl - calcSigma ucl lcl) = true ∧
    beyond1Sigma cl (calcSigma ucl lcl) (cl - calcSigma ucl lcl) = false := by
  have hs : 0 ≤ calcSigma ucl lcl := by
    unfold calcSigma
    linarith
  set s := calcSigma ucl lcl with hsdef
  refine ⟨?_, ?_, ?_, ?_, ?_⟩
  · rw [Bool.eq_iff_iff]
    simp only [inZoneC, beyond1Sigma, above1Sigma, below1Sigma, Bool.and_eq_true,
      Bool.or_eq_true, Bool.not_eq_true', Bool.or_eq_false_iff, decide_eq_true_eq,
      decide_eq_false_iff_not, not_lt]
  · simp only [inZoneC, Bool.and_eq_true, decide_eq_true_eq]
    constructor <;> linarith
  · simp only [beyond1Sigma, above1Sigma, below1Sigma, Bool.or_eq_false_iff,
      decide_eq_false_iff_not, not_lt]
    constructor <;> linarith
  · simp only [inZoneC, Bool.and_eq_true, decide_eq_true_eq]
    constructor <;> linarith
  · simp only [beyond1Sigma, above1Sigma, below1Sigma, Bool.or_eq_false_iff,
      decide_eq_false_iff_not, not_lt]
    constructor <;> linarith

/-- Witness for C10 at `cl = 0`, `ucl = 3`, `lcl = -3`, `v = 7`. -/
theorem zoneC_complement_witness :
    inZoneC 0 (calcSigma 3 (-3)) 7 = ! beyond1Sigma 0 (calcSigma 3 (-3)) 7 ∧
    inZoneC 0 (calcSigma 3 (-3)) (0 + calcSigma 3 (-3)) = true ∧
    beyond1Sigma 0 (calcSigma 3 (-3)) (0 + calcSigma 3 (-3)) = false ∧
    inZoneC 0 (calcSigma 3 (-3)) (0 - calcSigma 3 (-3)) = true ∧
    beyond1Sigma 0 (calcSigma 3 (-3)) (0 - calcSigma 3 (-3)) = false :=
  zoneC_complement 0 3 (-3) 7 (by norm_num)

/-- Claim C1 counterexample: with `cl = 0`, `ucl = 3`, `lcl = -3` and the
series `xsRule7`, the 15 points at indices 1..15 all lie inside Zone C (the
window test at index 15 holds), yet index 14 — a point of that qualifying
window — carries no Rule 7 flag: the rule does not flag all 15 points of a
qualifying window. -/
theorem rule7_not_all_window_flagged :
    windowAll (xsRule7.map (inZoneC 0 (calcSigma 3 (-3)))) 15 15 = true ∧
    (nelson7Flags 0 3 (-3) xsRule7).getD 14 false = false := by
  constructor
  · with_unfolding_all decide
  · with_unfolding_all decide

/-- Applying one rule never changes the shared mean column. -/
theorem applyRule_mean (p : Params) (t : NelsonTable) (i : Fin 8) :
    (applyRule p t i).mean = t.mean := rfl

/-- Two rule applications commute: each reads only the untouched mean column
and writes only its own column. -/
theorem applyRule_comm (p : Params) (t : NelsonTable) (i j : Fin 8) :
    applyRule p (applyRule p t i) j = applyRule p (applyRule p t j) i := by
  by_cases hij : i = j
  · subst hij
    rfl
  · unfold applyRule
    simp only [applyRule_mean]
    congr 1
    exact Function.update_comm hij _ _ t.flags

/-- Rule application sequences with the same multiset of rules agree. -/
theorem applyRules_perm (p : Params) {l1 l2 : List (Fin 8)} (h : l1.Perm l2)
    (t : NelsonTable) : applyRules p l1 t = applyRules p l2 t := by
  induction h generalizing t with
  | nil => rfl
  | cons x _ ih => exact ih (applyRule p t x)
  | swap x y l =>
    show applyRules p l (applyRule p (applyRule p t y) x) =
      applyRules p l (applyRule p (applyRule p t x) y)
    rw [applyRule_comm]
  | trans _ _ ih1 ih2 => exact (ih1 t).trans (ih2 t)

/-- Claim C9: each Nelson rule reads only the shared mean column and the limit
parameters, writes only its own flag column and leaves every other column
unchanged, so evaluating the eight rules in any order yields the same
classified table. -/
theorem nelson_rules_order_independent (p : Params) (t : NelsonTable)
    (l1 l2 : List (Fin 8)) (h : l1.Perm l2) :
    applyRules p l1 t = applyRules p l2 t ∧
    (∀ i, (applyRule p t i).mean = t.mean) ∧
    (∀ i j, j ≠ i → (applyRule p t i).flags j = t.flags j) :=
  ⟨applyRules_perm p h t, fun i => applyRule_mean p t i,
    fun _ j hj => Function.update_noteq hj _ _⟩

/-- Witness for C9: the order used by `_check_nelson` and its reverse produce
the same table on a concrete two-point series. -/
theorem nelson_rules_order_independent_witness :
    applyRules ⟨0, 3, -3⟩ allRules ⟨[1, 2], fun _ => none⟩ =
      applyRules ⟨0, 3, -3⟩ allRules.reverse ⟨[1, 2], fun _ => none⟩ ∧
    (∀ i, (applyRule ⟨0, 3, -3⟩ ⟨[1, 2], fun _ => none⟩ i).mean =
      (⟨[1, 2], fun _ => none⟩ : NelsonTable).mean) ∧
    (∀ i j, j ≠ i →
      (applyRule ⟨0, 3, -3⟩ ⟨[1, 2], fun _ => none⟩ i).flags j =
        (⟨[1, 2], fun _ => none⟩ : NelsonTable).flags j) :=
  nelson_rules_order_independent ⟨0, 3, -3⟩ ⟨[1, 2], fun _ => none⟩
    allRules allRules.reverse (by decide)

/-- Claim C4: the OOS mask flags index `i` exactly when a present USL lies
strictly below the value or a present LSL lies strictly above it; an absent
limit never triggers its side (the pandas comparison against None is
all-False, behaving like an infinite limit) and the classification still
succeeds; and the mask is literally Rule 1 evaluated at USL/LSL. -/
theorem check_oos_spec (usl lsl : Option ℚ) (xs : List ℚ) (i : ℕ)
    (h : i < xs.length) :
    check_oos_flags usl lsl xs = nelson1Flags usl lsl xs ∧
    ((check_oos_flags usl lsl xs).getD i false = true ↔
      (∃ u, usl = some u ∧ u < xs.getD i 0) ∨
      (∃ l, lsl = some l ∧ xs.getD i 0 < l)) := by
  refine ⟨rfl, ?_⟩
  unfold check_oos_flags
  rw [getD_map _ _ _ h]
  cases usl <;> cases lsl <;>
    simp [gtO, ltO]

/-- Witness for C4: absent USL, `LSL = 0`, series `[-1, 5]`, index 0. -/
theorem check_oos_spec_witness :
    check_oos_flags none (some 0) [-1, 5] = nelson1Flags none (some 0) [-1, 5] ∧
    ((check_oos_flags none (some 0) [-1, 5]).getD 0 false = true ↔
      (∃ u, (none : Option ℚ) = some u ∧ u < ([-1, 5] : List ℚ).getD 0 0) ∨
      (∃ l, (some 0 : Option ℚ) = some l ∧ ([-1, 5] : List ℚ).getD 0 0 < l)) :=
  check_oos_spec none (some 0) [-1, 5] 0 (by norm_num)

/-- Claim C6: for every supported dominant subgroup size in 1..15 the variant
selection produces both limit triples, and on each track the limits form a
strict chain LCL < CL < UCL when the underlying variability estimate is
positive and collapse to UCL = CL = LCL when it is zero. -/
theorem selectLimits_ordered (n : ℕ) (df : List SubgroupRow)
    (h1 : 1 ≤ n) (h2 : n ≤ 15) :
    ∃ cent vr, selectLimits n df = some (cent, vr) ∧
      limitsOrderedOK cent (estCentral n df) ∧
      limitsOrderedOK vr (estVar n df) := by
  interval_cases n
  · exact ⟨_, _, rfl, iChainOK _ _ _ (by norm_num [D2_TABLE]),
      mulChainOK _ 0 (3268/1000) le_rfl (by norm_num) (by norm_num)⟩
  all_goals exact ⟨_, _, rfl, addChainOK _ _ _ (by norm_num),
    mulChainOK _ _ _ (by norm_num) (by norm_num) (by norm_num)⟩

/-- Witness for C6 at `n = 5` on the one-row table `dfOne`. -/
theorem selectLimits_ordered_witness :
    ∃ cent vr, selectLimits 5 dfOne = some (cent, vr) ∧
      limitsOrderedOK cent (estCentral 5 dfOne) ∧
      limitsOrderedOK vr (estVar 5 dfOne) :=
  selectLimits_ordered 5 dfOne (by norm_num) (by norm_num)

/-- Claim C8: the dominant size maximizes the frequency among the subgroup
sizes; when it exceeds 1 the table splits into the rows matching it (valid)
and the rows deviating from it (invalid, excluded from downstream work);
when it equals 1 all rows stay valid; and on sizes `[5, 5, 5, 4, 5]` the
dominant size is 5 with exactly the one size-4 row in the invalid set. -/
theorem group_partition_spec (df : List SubgroupRow) (h : df ≠ []) :
    (∀ s ∈ df.map SubgroupRow.size,
      countOf (df.map SubgroupRow.size) s ≤
        countOf (df.map SubgroupRow.size) (group_partition df).dominant) ∧
    (1 < (group_partition df).dominant →
      (group_partition df).valid =
        df.filter (fun r => r.size = (group_partition df).dominant) ∧
      (group_partition df).invalid =
        df.filter (fun r => ¬ r.size = (group_partition df).dominant) ∧
      ∀ r ∈ (group_partition df).valid, r.size = (group_partition df).dominant) ∧
    ((group_partition df).dominant = 1 →
      (group_partition df).valid = df ∧ (group_partition df).invalid = []) ∧
    (group_partition dfSizes).dominant = 5 ∧
    (group_partition dfSizes).invalid = [mkRow 4 1 4] := by
  have hd : (group_partition df).dominant = dominantSize (df.map SubgroupRow.size) := by
    by_cases h1 : 1 < dominantSize (df.map SubgroupRow.size) <;>
      simp [group_partition, h1]
  have hmapne : df.map SubgroupRow.size ≠ [] := by
    intro hx
    exact h (List.map_eq_nil_iff.mp hx)
  obtain ⟨m, hm⟩ : ∃ m, (df.map SubgroupRow.size).argmax
      (countOf (df.map SubgroupRow.size)) = some m := by
    cases hx : (df.map SubgroupRow.size).argmax (countOf (df.map SubgroupRow.size)) with
    | none => exact absurd (List.argmax_eq_none.mp hx) hmapne
    | some m => exact ⟨m, rfl⟩
  have hdm : dominantSize (df.map SubgroupRow.size) = m := by
    simp [dominantSize, hm]
  refine ⟨?_, ?_, ?_, ?_, ?_⟩
  · intro s hs
    rw [hd, hdm]
    exact not_lt.mp (List.not_lt_of_mem_argmax hs (Option.mem_def.mpr hm))
  · intro hpos
    rw [hd] at hpos
    refine ⟨?_, ?_, ?_⟩
    · simp [group_partition, hpos, hd]
    · simp [group_partition, hpos, hd]
    · intro r hr
      rw [hd]
      have hr2 : r ∈ df.filter
          (fun r => decide (r.size = dominantSize (df.map SubgroupRow.size))) := by
        have hv : (group_partition df).valid = df.filter
            (fun r => decide (r.size = dominantSize (df.map SubgroupRow.size))) := by
          simp [group_partition, hpos]
        rw [hv] at hr
        exact hr
      exact of_decide_eq_true (List.mem_filter.mp hr2).2
  · intro hone
    rw [hd] at hone
    have hnot : ¬ 1 < dominantSize (df.map SubgroupRow.size) := by omega
    constructor <;> simp [group_partition, hnot]
  · with_unfolding_all decide
  · with_unfolding_all decide

/-- Witness for C8 on the concrete table `dfSizes`. -/
theorem group_partition_spec_witness :
    (∀ s ∈ dfSizes.map SubgroupRow.size,
      countOf (dfSizes.map SubgroupRow.size) s ≤
        countOf (dfSizes.map SubgroupRow.size) (group_partition dfSizes).dominant) ∧
    (1 < (group_partition dfSizes).dominant →
      (group_partition dfSizes).valid =
        dfSizes.filter (fun r => r.size = (group_partition dfSizes).dominant) ∧
      (group_partition dfSizes).invalid =
        dfSizes.filter (fun r => ¬ r.size = (group_partition dfSizes).dominant) ∧
      ∀ r ∈ (group_partition dfSizes).valid,
        r.size = (group_partition dfSizes).dominant) ∧
    ((group_partition dfSizes).dominant = 1 →
      (group_partition dfSizes).valid = dfSizes ∧
      (group_partition dfSizes).invalid = []) ∧
    (group_partition dfSizes).dominant = 5 ∧
    (group_partition dfSizes).invalid = [mkRow 4 1 4] :=
  group_partition_spec dfSizes (by with_unfolding_all decide)

/-- Claim C1 amended: a Rule 7 flag at index `i` holds exactly when `i < 14`
(the unconditional NaN-artifact prefix) or when `i` is at least 14 and the 15
points at indices `i - 14 .. i` all lie inside Zone C; so a qualifying window
marks only its last point, and the earlier window points are flagged only
through the artifact prefix or as the last point of another window. -/
theorem nelson7_flag_characterization (cl ucl lcl : ℚ) (xs : List ℚ) (i : ℕ)
    (h : i < xs.length) :
    ((nelson7Flags cl ucl lcl xs).getD i false = true ↔
      i < 14 ∨ (14 ≤ i ∧ ∀ j, i - 14 ≤ j → j ≤ i →
        inZoneC cl (calcSigma ucl lcl) (xs.getD j 0) = true)) := by
  unfold nelson7Flags
  rw [getD_range_map _ _ _ h]
  simp only [Bool.or_eq_true, decide_eq_true_eq, windowAll, Bool.and_eq_true,
    List.all_eq_true, List.mem_range]
  constructor
  · rintro (h14 | ⟨h15, hall⟩)
    · exact Or.inl (by omega)
    · refine Or.inr ⟨by omega, ?_⟩
      intro j hj1 hj2
      have hk : i - j < 15 := by omega
      have hji : i - (i - j) = j := by omega
      have hv := hall (i - j) hk
      rw [hji] at hv
      rw [getD_map _ _ _ (by omega : j < xs.length)] at hv
      exact hv
  · rintro (h14 | ⟨h15, hall⟩)
    · exact Or.inl (by omega)
    · refine Or.inr ⟨by omega, ?_⟩
      intro k hk
      have hv := hall (i - k) (by omega) (by omega)
      rw [getD_map _ _ _ (by omega : i - k < xs.length)]
      exact hv

/-- Witness for C1 at index 15 of `xsRule7`: the flag there is equivalent to
the 15 points at indices 1..15 lying inside Zone C. -/
theorem nelson7_flag_characterization_witness :
    ((nelson7Flags 0 3 (-3) xsRule7).getD 15 false = true ↔
      15 < 14 ∨ (14 ≤ 15 ∧ ∀ j, 15 - 14 ≤ j → j ≤ 15 →
        inZoneC 0 (calcSigma 3 (-3)) (xsRule7.getD j 0) = true)) :=
  nelson7_flag_characterization 0 3 (-3) xsRule7 15 (by decide)

end SPC
